import Mathlib

/-
Shallow embedding of src/src/configuration_api.rs (the configuration RPC
surface of an in-memory execution node).

The file embeds the nine operations of `impl ConfigurationApiNamespaceT for
ConfigurationApiNamespace` as pure functions over an explicit state record.
The `RwLock` around the shared state is modelled by a `poisoned : Bool`
parameter per call: `read()/write()` return `Err` exactly when the lock is
poisoned; `.unwrap()` on that `Err` is modelled as the `panicked` outcome,
while `.map_err(|_| into_jsrpc_error(Web3Error::InternalError))?` is modelled
as the `err internalError` outcome.

The enum types `ShowCalls`, `ShowStorageLogs`, `ShowVMDetails`,
`ShowGasDetails` (crate::node), `LogLevel` (crate::observability), the
`InMemoryNodeInner` record and the observability bridge are defined outside
the file under verification; they are modelled from the spec, as marked on
each definition.
-/

namespace EraConfig

/-- Modelled from the spec: `crate::node::ShowCalls`, the enumerated
verbosity level for call tracing ("a small closed set of verbosity levels");
the spec scenario names the members `None` and `User`, with `All` as the
remaining level. -/
inductive ShowCalls where
  | None
  | User
  | All
deriving DecidableEq, Repr

/-- Canonical string rendering of a `ShowCalls` value (the Rust `Display` /
`to_string`). -/
def ShowCalls.to_string : ShowCalls → String
  | .None => "None"
  | .User => "User"
  | .All => "All"

/-- Total parse of an external string into `ShowCalls` (the Rust `FromStr`
used by `value.parse::<ShowCalls>()`); unrecognized spellings yield `none`
(the `Err` case). -/
def ShowCalls.parse : String → Option ShowCalls
  | "None" => some .None
  | "User" => some .User
  | "All" => some .All
  | _ => Option.none

/-- Modelled from the spec: `crate::node::ShowStorageLogs`, the enumerated
verbosity level for storage-log tracing; the spec does not name the members,
so a representative closed set is used. -/
inductive ShowStorageLogs where
  | None
  | Read
  | Write
  | All
deriving DecidableEq, Repr

/-- Canonical string rendering of a `ShowStorageLogs` value. -/
def ShowStorageLogs.to_string : ShowStorageLogs → String
  | .None => "None"
  | .Read => "Read"
  | .Write => "Write"
  | .All => "All"

/-- Total parse of an external string into `ShowStorageLogs`. -/
def ShowStorageLogs.parse : String → Option ShowStorageLogs
  | "None" => some .None
  | "Read" => some .Read
  | "Write" => some .Write
  | "All" => some .All
  | _ => Option.none

/-- Modelled from the spec: `crate::node::ShowVMDetails`, the enumerated
verbosity level for VM execution detail; the spec does not name the members,
so the minimal closed set is used. -/
inductive ShowVMDetails where
  | None
  | All
deriving DecidableEq, Repr

/-- Canonical string rendering of a `ShowVMDetails` value. -/
def ShowVMDetails.to_string : ShowVMDetails → String
  | .None => "None"
  | .All => "All"

/-- Total parse of an external string into `ShowVMDetails`. -/
def ShowVMDetails.parse : String → Option ShowVMDetails
  | "None" => some .None
  | "All" => some .All
  | _ => Option.none

/-- Modelled from the spec: `crate::node::ShowGasDetails`, the enumerated
verbosity level for gas-accounting detail; the spec does not name the
members, so the minimal closed set is used. -/
inductive ShowGasDetails where
  | None
  | All
deriving DecidableEq, Repr

/-- Canonical string rendering of a `ShowGasDetails` value. -/
def ShowGasDetails.to_string : ShowGasDetails → String
  | .None => "None"
  | .All => "All"

/-- Total parse of an external string into `ShowGasDetails`. -/
def ShowGasDetails.parse : String → Option ShowGasDetails
  | "None" => some .None
  | "All" => some .All
  | _ => Option.none

/-- Modelled from the spec: `crate::observability::LogLevel`, the structured
verbosity level forwarded to the log subsystem; the trait documentation in
the source lists trace, debug, info, warn, error. -/
inductive LogLevel where
  | Trace
  | Debug
  | Info
  | Warn
  | Error
deriving DecidableEq, Repr

/-- Modelled from the spec: the Log Control Bridge (the `observability`
handle). It is a stateless pass-through to an external subsystem; each call
either succeeds (`true`, the Rust `Ok(_)`) or fails (`false`, the Rust
`Err(err)` whose cause is only logged). The outcome functions stand for the
external subsystem's behaviour. -/
structure Observability where
  set_log_level : LogLevel → Bool
  set_logging : String → Bool

/-- Modelled from the spec: `crate::node::InMemoryNodeInner`, restricted to
the fields this surface reads or writes (spec section 3, Shared Node State),
matching the accesses in configuration_api.rs. -/
structure InMemoryNodeInner where
  show_calls : ShowCalls
  show_storage_logs : ShowStorageLogs
  show_vm_details : ShowVMDetails
  show_gas_details : ShowGasDetails
  resolve_hashes : Bool
  current_timestamp : Nat
  observability : Option Observability

/-- The error payload produced by `into_jsrpc_error(Web3Error::InternalError)`:
the generic internal-error response. -/
inductive RpcError where
  | internalError
deriving DecidableEq, Repr

/-- Outcome of one RPC operation: `ok` is `Ok(_)` of `jsonrpc_core::Result`,
`err` is `Err(_)`, and `panicked` is an `unwrap()` panic on a poisoned lock
(the call never returns a `Result` at all). -/
inductive RpcOutcome (α : Type) where
  | ok : α → RpcOutcome α
  | err : RpcError → RpcOutcome α
  | panicked : RpcOutcome α
deriving DecidableEq, Repr

/-- Lock events of one logging operation, used to model where the read guard
on the shared state lives relative to the bridge call. -/
inductive Event where
  | readAcquire
  | bridgeCall
  | readRelease
deriving DecidableEq, Repr

/-- `config_get_show_calls`: `self.node.read().unwrap()`, then render the
field. -/
def config_get_show_calls (poisoned : Bool) (s : InMemoryNodeInner) :
    RpcOutcome String × InMemoryNodeInner :=
  if poisoned then (.panicked, s)
  else (.ok s.show_calls.to_string, s)

/-- `config_get_current_timestamp`: `self.node.read().unwrap()`, then return
the field. -/
def config_get_current_timestamp (poisoned : Bool) (s : InMemoryNodeInner) :
    RpcOutcome Nat × InMemoryNodeInner :=
  if poisoned then (.panicked, s)
  else (.ok s.current_timestamp, s)

/-- `config_set_show_calls`: parse first (no lock); on `Err`, read-lock and
return the current rendering; on `Ok`, write-lock, assign, and return the
rendering of the just-written field. -/
def config_set_show_calls (poisoned : Bool) (value : String)
    (s : InMemoryNodeInner) : RpcOutcome String × InMemoryNodeInner :=
  match ShowCalls.parse value with
  | Option.none =>
    if poisoned then (.panicked, s)
    else (.ok s.show_calls.to_string, s)
  | some v =>
    if poisoned then (.panicked, s)
    else
      let inner := { s with show_calls := v }
      (.ok inner.show_calls.to_string, inner)

/-- `config_set_show_storage_logs`: same shape as `config_set_show_calls`. -/
def config_set_show_storage_logs (poisoned : Bool) (value : String)
    (s : InMemoryNodeInner) : RpcOutcome String × InMemoryNodeInner :=
  match ShowStorageLogs.parse value with
  | Option.none =>
    if poisoned then (.panicked, s)
    else (.ok s.show_storage_logs.to_string, s)
  | some v =>
    if poisoned then (.panicked, s)
    else
      let inner := { s with show_storage_logs := v }
      (.ok inner.show_storage_logs.to_string, inner)

/-- `config_set_show_vm_details`: same shape as `config_set_show_calls`. -/
def config_set_show_vm_details (poisoned : Bool) (value : String)
    (s : InMemoryNodeInner) : RpcOutcome String × InMemoryNodeInner :=
  match ShowVMDetails.parse value with
  | Option.none =>
    if poisoned then (.panicked, s)
    else (.ok s.show_vm_details.to_string, s)
  | some v =>
    if poisoned then (.panicked, s)
    else
      let inner := { s with show_vm_details := v }
      (.ok inner.show_vm_details.to_string, inner)

/-- `config_set_show_gas_details`: same shape as `config_set_show_calls`. -/
def config_set_show_gas_details (poisoned : Bool) (value : String)
    (s : InMemoryNodeInner) : RpcOutcome String × InMemoryNodeInner :=
  match ShowGasDetails.parse value with
  | Option.none =>
    if poisoned then (.panicked, s)
    else (.ok s.show_gas_details.to_string, s)
  | some v =>
    if poisoned then (.panicked, s)
    else
      let inner := { s with show_gas_details := v }
      (.ok inner.show_gas_details.to_string, inner)

/-- `config_set_resolve_hashes`: `self.node.write().unwrap()`, assign, return
the just-written field. -/
def config_set_resolve_hashes (poisoned : Bool) (value : Bool)
    (s : InMemoryNodeInner) : RpcOutcome Bool × InMemoryNodeInner :=
  if poisoned then (.panicked, s)
  else
    let inner := { s with resolve_hashes := value }
    (.ok inner.resolve_hashes, inner)

/-- `config_set_log_level`: `read()` is mapped through
`into_jsrpc_error(Web3Error::InternalError)` on poisoning; otherwise the
observability field is inspected. The read guard is a temporary inside the
if-let scrutinee, so it is dropped only at the end of the whole if-let: the
read lock stays held across the bridge call, which the event trace records.
Bridge failure yields `Ok(false)`; absence or success yields `Ok(true)`. -/
def config_set_log_level (poisoned : Bool) (level : LogLevel)
    (s : InMemoryNodeInner) :
    RpcOutcome Bool × InMemoryNodeInner × List Event :=
  if poisoned then (.err .internalError, s, [])
  else
    match s.observability with
    | Option.none => (.ok true, s, [.readAcquire, .readRelease])
    | some o =>
      if o.set_log_level level then
        (.ok true, s, [.readAcquire, .bridgeCall, .readRelease])
      else
        (.ok false, s, [.readAcquire, .bridgeCall, .readRelease])

/-- `config_set_logging`: identical structure to `config_set_log_level`,
forwarding a directive string through `observability.set_logging`. -/
def config_set_logging (poisoned : Bool) (directive : String)
    (s : InMemoryNodeInner) :
    RpcOutcome Bool × InMemoryNodeInner × List Event :=
  if poisoned then (.err .internalError, s, [])
  else
    match s.observability with
    | Option.none => (.ok true, s, [.readAcquire, .readRelease])
    | some o =>
      if o.set_logging directive then
        (.ok true, s, [.readAcquire, .bridgeCall, .readRelease])
      else
        (.ok false, s, [.readAcquire, .bridgeCall, .readRelease])

/-- Modelled from the spec: the generic `get(field)` of spec section 4.2 for
the fields that have no RPC getter in the source (only `show_calls` and
`current_timestamp` do): acquire read access, return the canonical
rendering. -/
def config_get_show_storage_logs (poisoned : Bool) (s : InMemoryNodeInner) :
    RpcOutcome String × InMemoryNodeInner :=
  if poisoned then (.panicked, s)
  else (.ok s.show_storage_logs.to_string, s)

/-- Modelled from the spec: generic `get(field)` for `show_vm_details` (see
`config_get_show_storage_logs`). -/
def config_get_show_vm_details (poisoned : Bool) (s : InMemoryNodeInner) :
    RpcOutcome String × InMemoryNodeInner :=
  if poisoned then (.panicked, s)
  else (.ok s.show_vm_details.to_string, s)

/-- Modelled from the spec: generic `get(field)` for `show_gas_details` (see
`config_get_show_storage_logs`). -/
def config_get_show_gas_details (poisoned : Bool) (s : InMemoryNodeInner) :
    RpcOutcome String × InMemoryNodeInner :=
  if poisoned then (.panicked, s)
  else (.ok s.show_gas_details.to_string, s)

/-- Whether, in a logging operation's event trace, the read lock is released
strictly before the bridge is invoked (`List.indexOf` returns the list
length when the event is absent). -/
def releasedBeforeBridgeCall (t : List Event) : Bool :=
  t.indexOf Event.readRelease < t.indexOf Event.bridgeCall

/-- A bridge whose external subsystem accepts every level and directive. -/
def obsAccept : Observability :=
  { set_log_level := fun _ => true, set_logging := fun _ => true }

/-- A bridge whose external subsystem rejects every level and directive. -/
def obsReject : Observability :=
  { set_log_level := fun _ => false, set_logging := fun _ => false }

/-- A bridge that accepts levels but rejects directives; it agrees with
`obsAccept` on every level outcome while being a different handle. -/
def obsMixed : Observability :=
  { set_log_level := fun _ => true, set_logging := fun _ => false }

/-- A concrete shared state with an accepting bridge present. -/
def state0 : InMemoryNodeInner :=
  { show_calls := .None
    show_storage_logs := .None
    show_vm_details := .None
    show_gas_details := .None
    resolve_hashes := false
    current_timestamp := 0
    observability := some obsAccept }

/-- A concrete shared state with no bridge configured. -/
def stateNoBridge : InMemoryNodeInner :=
  { state0 with observability := Option.none }

/-- A concrete shared state with a rejecting bridge present. -/
def stateReject : InMemoryNodeInner :=
  { state0 with observability := some obsReject }

/-- A concrete shared state equal to `state0` on every toggle field but
carrying the `obsMixed` bridge. -/
def stateMixed : InMemoryNodeInner :=
  { state0 with observability := some obsMixed }

/-- The nine RPC operations of the Configuration Service, with their
arguments. -/
inductive Operation where
  | getShowCalls
  | getCurrentTimestamp
  | setShowCalls (value : String)
  | setShowStorageLogs (value : String)
  | setShowVmDetails (value : String)
  | setShowGasDetails (value : String)
  | setResolveHashes (value : Bool)
  | setLogLevel (level : LogLevel)
  | setLogging (directive : String)

/-- A uniform return value for the nine operations (string, unsigned
integer, or boolean). -/
inductive RpcValue where
  | ofString : String → RpcValue
  | ofNat : Nat → RpcValue
  | ofBool : Bool → RpcValue
deriving DecidableEq, Repr

/-- Map the payload of an outcome. -/
def RpcOutcome.map {α β : Type} (f : α → β) : RpcOutcome α → RpcOutcome β
  | .ok a => .ok (f a)
  | .err e => .err e
  | .panicked => .panicked

/-- Uniform dispatcher over the nine operations, returning the outcome and
the post-state. -/
def run (op : Operation) (poisoned : Bool) (s : InMemoryNodeInner) :
    RpcOutcome RpcValue × InMemoryNodeInner :=
  match op with
  | .getShowCalls =>
    let r := config_get_show_calls poisoned s
    (r.1.map .ofString, r.2)
  | .getCurrentTimestamp =>
    let r := config_get_current_timestamp poisoned s
    (r.1.map .ofNat, r.2)
  | .setShowCalls v =>
    let r := config_set_show_calls poisoned v s
    (r.1.map .ofString, r.2)
  | .setShowStorageLogs v =>
    let r := config_set_show_storage_logs poisoned v s
    (r.1.map .ofString, r.2)
  | .setShowVmDetails v =>
    let r := config_set_show_vm_details poisoned v s
    (r.1.map .ofString, r.2)
  | .setShowGasDetails v =>
    let r := config_set_show_gas_details poisoned v s
    (r.1.map .ofString, r.2)
  | .setResolveHashes v =>
    let r := config_set_resolve_hashes poisoned v s
    (r.1.map .ofBool, r.2)
  | .setLogLevel level =>
    let r := config_set_log_level poisoned level s
    (r.1.map .ofBool, r.2.1)
  | .setLogging d =>
    let r := config_set_logging poisoned d s
    (r.1.map .ofBool, r.2.1)

/-- Equality of the two states on every field of Shared Node State except
the bridge handle. -/
def togglesEq (s₁ s₂ : InMemoryNodeInner) : Prop :=
  s₁.show_calls = s₂.show_calls ∧
  s₁.show_storage_logs = s₂.show_storage_logs ∧
  s₁.show_vm_details = s₂.show_vm_details ∧
  s₁.show_gas_details = s₂.show_gas_details ∧
  s₁.resolve_hashes = s₂.resolve_hashes ∧
  s₁.current_timestamp = s₂.current_timestamp

/-- Same bridge presence in both states and, for the logging operations, the
same bridge outcome at the operation's own argument. Other operations never
consult the bridge, so no constraint is needed there. -/
def bridgeAgree (op : Operation) (s₁ s₂ : InMemoryNodeInner) : Prop :=
  match op with
  | .setLogLevel level =>
    match s₁.observability, s₂.observability with
    | Option.none, Option.none => True
    | some o₁, some o₂ => o₁.set_log_level level = o₂.set_log_level level
    | _, _ => False
  | .setLogging d =>
    match s₁.observability, s₂.observability with
    | Option.none, Option.none => True
    | some o₁, some o₂ => o₁.set_logging d = o₂.set_logging d
    | _, _ => False
  | _ => True

/-- The codec round-trips: parsing a canonical rendering recovers the value. -/
theorem showCalls_parse_round (x : ShowCalls) :
    ShowCalls.parse x.to_string = some x := by
  cases x <;> rfl

/-- The codec round-trips for `ShowStorageLogs`. -/
theorem showStorageLogs_parse_round (x : ShowStorageLogs) :
    ShowStorageLogs.parse x.to_string = some x := by
  cases x <;> rfl

/-- The codec round-trips for `ShowVMDetails`. -/
theorem showVMDetails_parse_round (x : ShowVMDetails) :
    ShowVMDetails.parse x.to_string = some x := by
  cases x <;> rfl

/-- The codec round-trips for `ShowGasDetails`. -/
theorem showGasDetails_parse_round (x : ShowGasDetails) :
    ShowGasDetails.parse x.to_string = some x := by
  cases x <;> rfl

/-- C1: for each enumerated setting field, an input string that does not
parse leaves the stored field equal to its pre-call value, and the set
operation returns the canonical rendering of that pre-call value wrapped in
a protocol-level success (`ok`). -/
theorem invalid_input_fallback (s : InMemoryNodeInner) (v : String) :
    (ShowCalls.parse v = Option.none →
      config_set_show_calls false v s = (.ok s.show_calls.to_string, s)) ∧
    (ShowStorageLogs.parse v = Option.none →
      config_set_show_storage_logs false v s
        = (.ok s.show_storage_logs.to_string, s)) ∧
    (ShowVMDetails.parse v = Option.none →
      config_set_show_vm_details false v s
        = (.ok s.show_vm_details.to_string, s)) ∧
    (ShowGasDetails.parse v = Option.none →
      config_set_show_gas_details false v s
        = (.ok s.show_gas_details.to_string, s)) := by
  refine ⟨fun h => ?_, fun h => ?_, fun h => ?_, fun h => ?_⟩ <;>
    simp [config_set_show_calls, config_set_show_storage_logs,
      config_set_show_vm_details, config_set_show_gas_details, h]

/-- C1 witness: the garbage string "bogus" parses for no field, and each set
operation returns the pre-call rendering with the state unchanged. -/
theorem invalid_input_fallback_witness :
    config_set_show_calls false "bogus" state0 = (.ok "None", state0) ∧
    config_set_show_storage_logs false "bogus" state0 = (.ok "None", state0) ∧
    config_set_show_vm_details false "bogus" state0 = (.ok "None", state0) ∧
    config_set_show_gas_details false "bogus" state0 = (.ok "None", state0) :=
  ⟨(invalid_input_fallback state0 "bogus").1 rfl,
   (invalid_input_fallback state0 "bogus").2.1 rfl,
   (invalid_input_fallback state0 "bogus").2.2.1 rfl,
   (invalid_input_fallback state0 "bogus").2.2.2 rfl⟩

/-- C2 counterexample: with a poisoned lock, `config_get_show_calls` panics
on `unwrap()` rather than reporting the generic internal-error response, so
the claim does not hold for every operation. -/
theorem lock_failure_not_uniformly_reported :
    (config_get_show_calls true state0).1 = RpcOutcome.panicked ∧
    (config_get_show_calls true state0).1
      ≠ RpcOutcome.err RpcError.internalError := by
  exact ⟨rfl, by decide⟩

/-- C2 amended: on a failed (poisoned) lock acquisition, only the two
logging operations report the generic internal error; the seven other
operations propagate the failure as a panic. The state is untouched in every
case. -/
theorem lock_failure_behavior (s : InMemoryNodeInner) (v : String) (b : Bool)
    (level : LogLevel) (d : String) :
    (config_get_show_calls true s).1 = RpcOutcome.panicked ∧
    (config_get_current_timestamp true s).1 = RpcOutcome.panicked ∧
    (config_set_show_calls true v s).1 = RpcOutcome.panicked ∧
    (config_set_show_storage_logs true v s).1 = RpcOutcome.panicked ∧
    (config_set_show_vm_details true v s).1 = RpcOutcome.panicked ∧
    (config_set_show_gas_details true v s).1 = RpcOutcome.panicked ∧
    (config_set_resolve_hashes true b s).1 = RpcOutcome.panicked ∧
    (config_set_log_level true level s).1
      = RpcOutcome.err RpcError.internalError ∧
    (config_set_logging true d s).1
      = RpcOutcome.err RpcError.internalError := by
  refine ⟨rfl, rfl, ?_, ?_, ?_, ?_, rfl, rfl, rfl⟩
  · cases h : ShowCalls.parse v <;> simp [config_set_show_calls, h]
  · cases h : ShowStorageLogs.parse v <;>
      simp [config_set_show_storage_logs, h]
  · cases h : ShowVMDetails.parse v <;> simp [config_set_show_vm_details, h]
  · cases h : ShowGasDetails.parse v <;> simp [config_set_show_gas_details, h]

/-- C3: for every enumerated field and every value of its type, setting the
field to the canonical rendering returns that rendering, and an immediately
following get returns it again. -/
theorem set_then_get_round_trip (s : InMemoryNodeInner) :
    (∀ x : ShowCalls,
      (config_set_show_calls false x.to_string s).1 = .ok x.to_string ∧
      (config_get_show_calls false
        (config_set_show_calls false x.to_string s).2).1 = .ok x.to_string) ∧
    (∀ x : ShowStorageLogs,
      (config_set_show_storage_logs false x.to_string s).1 = .ok x.to_string ∧
      (config_get_show_storage_logs false
        (config_set_show_storage_logs false x.to_string s).2).1
          = .ok x.to_string) ∧
    (∀ x : ShowVMDetails,
      (config_set_show_vm_details false x.to_string s).1 = .ok x.to_string ∧
      (config_get_show_vm_details false
        (config_set_show_vm_details false x.to_string s).2).1
          = .ok x.to_string) ∧
    (∀ x : ShowGasDetails,
      (config_set_show_gas_details false x.to_string s).1 = .ok x.to_string ∧
      (config_get_show_gas_details false
        (config_set_show_gas_details false x.to_string s).2).1
          = .ok x.to_string) := by
  refine ⟨fun x => ?_, fun x => ?_, fun x => ?_, fun x => ?_⟩ <;>
    simp [config_set_show_calls, config_set_show_storage_logs,
      config_set_show_vm_details, config_set_show_gas_details,
      config_get_show_calls, config_get_show_storage_logs,
      config_get_show_vm_details, config_get_show_gas_details,
      showCalls_parse_round, showStorageLogs_parse_round,
      showVMDetails_parse_round, showGasDetails_parse_round]

/-- C4: the two logging operations leave every toggle field and the
timestamp of Shared Node State unchanged, for every lock condition, bridge
presence and bridge outcome. -/
theorem logging_ops_preserve_state (p : Bool) (level : LogLevel) (d : String)
    (s : InMemoryNodeInner) :
    togglesEq (config_set_log_level p level s).2.1 s ∧
    togglesEq (config_set_logging p d s).2.1 s := by
  cases p with
  | true =>
    exact ⟨⟨rfl, rfl, rfl, rfl, rfl, rfl⟩, ⟨rfl, rfl, rfl, rfl, rfl, rfl⟩⟩
  | false =>
    cases h : s.observability with
    | none =>
      simp [config_set_log_level, config_set_logging, h, togglesEq]
    | some o =>
      cases h1 : o.set_log_level level <;> cases h2 : o.set_logging d <;>
        simp [config_set_log_level, config_set_logging, h, h1, h2, togglesEq]

/-- C5: when no bridge is configured, both logging operations return
`Ok(true)` without ever invoking the bridge. -/
theorem no_bridge_logging_success (level : LogLevel) (d : String)
    (s : InMemoryNodeInner) (h : s.observability = Option.none) :
    (config_set_log_level false level s).1 = .ok true ∧
    Event.bridgeCall ∉ (config_set_log_level false level s).2.2 ∧
    (config_set_logging false d s).1 = .ok true ∧
    Event.bridgeCall ∉ (config_set_logging false d s).2.2 := by
  simp [config_set_log_level, config_set_logging, h]

/-- C5 witness: on the bridge-free state, the debug level and the directive
"x=trace" both succeed without a bridge call. -/
theorem no_bridge_logging_success_witness :
    (config_set_log_level false LogLevel.Debug stateNoBridge).1 = .ok true ∧
    Event.bridgeCall
      ∉ (config_set_log_level false LogLevel.Debug stateNoBridge).2.2 ∧
    (config_set_logging false "x=trace" stateNoBridge).1 = .ok true ∧
    Event.bridgeCall
      ∉ (config_set_logging false "x=trace" stateNoBridge).2.2 :=
  no_bridge_logging_success LogLevel.Debug "x=trace" stateNoBridge rfl

/-- C6: with a bridge present, each logging operation returns `Ok(false)`
when the bridge rejects the level or directive and `Ok(true)` when it
accepts it; no structured error is produced. -/
theorem bridge_outcome_as_boolean (level : LogLevel) (d : String)
    (s : InMemoryNodeInner) (o : Observability)
    (h : s.observability = some o) :
    (o.set_log_level level = false →
      (config_set_log_level false level s).1 = .ok false) ∧
    (o.set_log_level level = true →
      (config_set_log_level false level s).1 = .ok true) ∧
    (o.set_logging d = false →
      (config_set_logging false d s).1 = .ok false) ∧
    (o.set_logging d = true →
      (config_set_logging false d s).1 = .ok true) := by
  refine ⟨fun hb => ?_, fun hb => ?_, fun hb => ?_, fun hb => ?_⟩ <;>
    simp [config_set_log_level, config_set_logging, h, hb]

/-- C6 witness: the rejecting bridge produces `Ok(false)` and the accepting
bridge produces `Ok(true)`, for both logging operations. -/
theorem bridge_outcome_as_boolean_witness :
    (config_set_log_level false LogLevel.Debug stateReject).1 = .ok false ∧
    (config_set_log_level false LogLevel.Debug state0).1 = .ok true ∧
    (config_set_logging false "x=trace" stateReject).1 = .ok false ∧
    (config_set_logging false "x=trace" state0).1 = .ok true :=
  ⟨(bridge_outcome_as_boolean LogLevel.Debug "x=trace" stateReject
      obsReject rfl).1 rfl,
   (bridge_outcome_as_boolean LogLevel.Debug "x=trace" state0
      obsAccept rfl).2.1 rfl,
   (bridge_outcome_as_boolean LogLevel.Debug "x=trace" stateReject
      obsReject rfl).2.2.1 rfl,
   (bridge_outcome_as_boolean LogLevel.Debug "x=trace" state0
      obsAccept rfl).2.2.2 rfl⟩

/-- C7: `config_set_resolve_hashes` stores the given boolean and returns it,
with no validation or fallback path. -/
theorem set_resolve_hashes_unconditional (b : Bool) (s : InMemoryNodeInner) :
    (config_set_resolve_hashes false b s).1 = .ok b ∧
    (config_set_resolve_hashes false b s).2
      = { s with resolve_hashes := b } :=
  ⟨rfl, rfl⟩

/-- C8: setting each enumerated field to the canonical rendering of its own
current value leaves the state unchanged and returns that same rendering. -/
theorem set_current_value_idempotent (s : InMemoryNodeInner) :
    config_set_show_calls false s.show_calls.to_string s
      = (.ok s.show_calls.to_string, s) ∧
    config_set_show_storage_logs false s.show_storage_logs.to_string s
      = (.ok s.show_storage_logs.to_string, s) ∧
    config_set_show_vm_details false s.show_vm_details.to_string s
      = (.ok s.show_vm_details.to_string, s) ∧
    config_set_show_gas_details false s.show_gas_details.to_string s
      = (.ok s.show_gas_details.to_string, s) := by
  refine ⟨?_, ?_, ?_, ?_⟩ <;>
    simp [config_set_show_calls, config_set_show_storage_logs,
      config_set_show_vm_details, config_set_show_gas_details,
      showCalls_parse_round, showStorageLogs_parse_round,
      showVMDetails_parse_round, showGasDetails_parse_round]

/-- C9 counterexample: with a bridge present, both logging operations invoke
the bridge, yet the read lock is not released before the bridge call — the
read guard is a temporary of the if-let scrutinee and lives to the end of
the whole if-let. -/
theorem lock_release_not_before_bridge :
    Event.bridgeCall
      ∈ (config_set_log_level false LogLevel.Debug state0).2.2 ∧
    releasedBeforeBridgeCall
      ((config_set_log_level false LogLevel.Debug state0).2.2) = false ∧
    Event.bridgeCall ∈ (config_set_logging false "x=trace" state0).2.2 ∧
    releasedBeforeBridgeCall
      ((config_set_logging false "x=trace" state0).2.2) = false := by
  decide

/-- C9 amended: whenever the bridge is present, each logging operation's
lock-event trace is acquire, bridge call, release — the read lock on Shared
Node State is held across the bridge invocation and released only after it
returns. -/
theorem lock_held_across_bridge (level : LogLevel) (d : String)
    (s : InMemoryNodeInner) (o : Observability)
    (h : s.observability = some o) :
    (config_set_log_level false level s).2.2
      = [Event.readAcquire, Event.bridgeCall, Event.readRelease] ∧
    (config_set_logging false d s).2.2
      = [Event.readAcquire, Event.bridgeCall, Event.readRelease] := by
  cases h1 : o.set_log_level level <;> cases h2 : o.set_logging d <;>
    simp [config_set_log_level, config_set_logging, h, h1, h2]

/-- C9 amended witness: on the concrete state with an accepting bridge, both
traces are acquire, bridge call, release. -/
theorem lock_held_across_bridge_witness :
    (config_set_log_level false LogLevel.Debug state0).2.2
      = [Event.readAcquire, Event.bridgeCall, Event.readRelease] ∧
    (config_set_logging false "x=trace" state0).2.2
      = [Event.readAcquire, Event.bridgeCall, Event.readRelease] :=
  lock_held_across_bridge LogLevel.Debug "x=trace" state0 obsAccept rfl

/-- C10: every operation is deterministic in its declared inputs — two runs
from states that agree on all toggle fields and the timestamp, with the same
lock condition, the same arguments, the same bridge presence and the same
bridge outcome at those arguments, produce the same return value and
post-states that again agree on all toggle fields and the timestamp. -/
theorem operations_deterministic (op : Operation) (p : Bool)
    (s₁ s₂ : InMemoryNodeInner) (ht : togglesEq s₁ s₂)
    (hb : bridgeAgree op s₁ s₂) :
    (run op p s₁).1 = (run op p s₂).1 ∧
    togglesEq (run op p s₁).2 (run op p s₂).2 := by
  obtain ⟨h1, h2, h3, h4, h5, h6⟩ := ht
  cases op with
  | getShowCalls =>
    cases p <;>
      simp [run, config_get_show_calls, togglesEq, h1, h2, h3, h4, h5, h6]
  | getCurrentTimestamp =>
    cases p <;>
      simp [run, config_get_current_timestamp, togglesEq,
        h1, h2, h3, h4, h5, h6]
  | setShowCalls v =>
    cases p <;> cases hv : ShowCalls.parse v <;>
      simp [run, config_set_show_calls, hv, togglesEq,
        h1, h2, h3, h4, h5, h6]
  | setShowStorageLogs v =>
    cases p <;> cases hv : ShowStorageLogs.parse v <;>
      simp [run, config_set_show_storage_logs, hv, togglesEq,
        h1, h2, h3, h4, h5, h6]
  | setShowVmDetails v =>
    cases p <;> cases hv : ShowVMDetails.parse v <;>
      simp [run, config_set_show_vm_details, hv, togglesEq,
        h1, h2, h3, h4, h5, h6]
  | setShowGasDetails v =>
    cases p <;> cases hv : ShowGasDetails.parse v <;>
      simp [run, config_set_show_gas_details, hv, togglesEq,
        h1, h2, h3, h4, h5, h6]
  | setResolveHashes v =>
    cases p <;>
      simp [run, config_set_resolve_hashes, togglesEq,
        h1, h2, h3, h4, h5, h6]
  | setLogLevel level =>
    cases p with
    | true =>
      simp [run, config_set_log_level, togglesEq, h1, h2, h3, h4, h5, h6]
    | false =>
      cases ho₁ : s₁.observability with
      | none =>
        cases ho₂ : s₂.observability with
        | none =>
          simp [run, config_set_log_level, ho₁, ho₂, togglesEq,
            h1, h2, h3, h4, h5, h6]
        | some o₂ =>
          simp [bridgeAgree, ho₁, ho₂] at hb
      | some o₁ =>
        cases ho₂ : s₂.observability with
        | none =>
          simp [bridgeAgree, ho₁, ho₂] at hb
        | some o₂ =>
          simp only [bridgeAgree, ho₁, ho₂] at hb
          cases hx : o₁.set_log_level level <;>
            rw [hx] at hb <;>
            simp [run, config_set_log_level, ho₁, ho₂, hx, hb.symm,
              togglesEq, h1, h2, h3, h4, h5, h6]
  | setLogging d =>
    cases p with
    | true =>
      simp [run, config_set_logging, togglesEq, h1, h2, h3, h4, h5, h6]
    | false =>
      cases ho₁ : s₁.observability with
      | none =>
        cases ho₂ : s₂.observability with
        | none =>
          simp [run, config_set_logging, ho₁, ho₂, togglesEq,
            h1, h2, h3, h4, h5, h6]
        | some o₂ =>
          simp [bridgeAgree, ho₁, ho₂] at hb
      | some o₁ =>
        cases ho₂ : s₂.observability with
        | none =>
          simp [bridgeAgree, ho₁, ho₂] at hb
        | some o₂ =>
          simp only [bridgeAgree, ho₁, ho₂] at hb
          cases hx : o₁.set_logging d <;>
            rw [hx] at hb <;>
            simp [run, config_set_logging, ho₁, ho₂, hx, hb.symm,
              togglesEq, h1, h2, h3, h4, h5, h6]

/-- C10 witness: two states with identical toggle fields but distinct bridge
handles that agree on the outcome for the debug level give the same result
and toggle-equal post-states. -/
theorem operations_deterministic_witness :
    (run (Operation.setLogLevel LogLevel.Debug) false state0).1
      = (run (Operation.setLogLevel LogLevel.Debug) false stateMixed).1 ∧
    togglesEq (run (Operation.setLogLevel LogLevel.Debug) false state0).2
      (run (Operation.setLogLevel LogLevel.Debug) false stateMixed).2 :=
  operations_deterministic (Operation.setLogLevel LogLevel.Debug) false
    state0 stateMixed ⟨rfl, rfl, rfl, rfl, rfl, rfl⟩ rfl

end EraConfig
